import Mathlib

/-!
Verification of the Waveshare LTE Hat AT-command client
(packages `wavesharecomm` and `waveshare_comm`).

The transport is modelled as a script of read events consumed in order by
`bufio.Reader.ReadLine`: a successful line (terminator already stripped),
an `io.EOF` ("no data yet, retry"), or any other read error carrying the
partially read bytes.  The context deadline of `waitForResponse` is modelled
by a logical clock: each read attempt advances the clock by one unit, and
the deadline check `ctx.Done()` fires once the clock reaches the timeout.
An exhausted script models a read that blocks until the deadline.

Bytes are `Nat` (values of Go `byte`); Go strings are their byte lists
(`asciiBytes` for the ASCII literals appearing in the program).
-/

namespace WaveshareComm

/-- Byte list of an ASCII string literal (Go `[]byte(s)` for ASCII `s`). -/
def asciiBytes (s : String) : List Nat :=
  s.data.map Char.toNat

/-- Source: `var OkResponseOk = []byte{'O', 'K'}`. -/
def OkResponseOk : List Nat := [79, 75]

/-- ASCII fast path of Go `bytes.TrimSpace` for a single byte:
`'\t'`, `'\n'`, `'\v'`, `'\f'`, `'\r'`, `' '`.  (Inputs in this protocol are
ASCII; multi-byte Unicode spaces do not occur.) -/
def isAsciiSpace (b : Nat) : Bool :=
  b == 32 || (9 ≤ b && b ≤ 13)

/-- Go `bytes.TrimSpace`: drop leading and trailing whitespace bytes. -/
def trimSpace (l : List Nat) : List Nat :=
  ((l.dropWhile isAsciiSpace).reverse.dropWhile isAsciiSpace).reverse

/-- Source: `WriteCommand` (identical in both packages) builds
`append([]byte("AT"), append([]byte(cmd), "\r\n"...)...)`:
the wire frame passed to `port.Write`. -/
def WriteCommandFrame (cmd : List Nat) : List Nat :=
  [65, 84] ++ (cmd ++ [13, 10])

/-- One result of a `bufio.Reader.ReadLine` attempt on the transport. -/
inductive ReadEvent
  /-- A complete line arrived; terminator already stripped by `ReadLine`. -/
  | line (bytes : List Nat)
  /-- `io.EOF`: no data currently available; `readLineIgnoreEof` retries. -/
  | eof
  /-- Any other read error, with the partially read bytes `ReadLine` returned. -/
  | fail (part : List Nat)
deriving DecidableEq

/-- Outcome of `readLineIgnoreEof`: a line together with the advanced clock
and remaining script, the context deadline firing, or a propagated
transport error. -/
inductive ReadOutcome
  | ok (lineBytes : List Nat) (now : Nat) (rest : List ReadEvent)
  | timedOut (rest : List ReadEvent)
  | failed (part : List Nat) (rest : List ReadEvent)
deriving DecidableEq

/-- Source: `readLineIgnoreEof`.  Loop: each iteration first checks
`ctx.Done()` (modelled as `deadline ≤ now`), returning the timeout error;
otherwise one `ReadLine` attempt is made, `io.EOF` is silently retried,
and any other result (line or error) is returned at once.  An empty script
is a read that blocks until the deadline fires. -/
def readLineIgnoreEof (deadline now : Nat) (s : List ReadEvent) : ReadOutcome :=
  if deadline ≤ now then .timedOut s
  else
    match s with
    | [] => .timedOut []
    | .line b :: rest => .ok b (now + 1) rest
    | .eof :: rest => readLineIgnoreEof deadline (now + 1) rest
    | .fail p :: rest => .failed p rest

/-- What the caller of `waitForResponse` observes from its `select`. -/
inductive WaitResult
  | success (lineBytes : List Nat)
  | timeout
  | channelClosed
deriving DecidableEq

/-- Source: `waitForResponse` plus its worker `goWaitForResponse`, sequenced.
A fresh deadline context is created per call (`now` restarts at 0).  The
worker discards one framing line, then reads the payload line:
* first read times out → worker exits, the caller's `ctx.Done()` has fired,
  so the caller reports the timeout error;
* first read fails with a transport error → worker logs it and exits without
  sending; the caller's deadline has not fired, so the caller receives from
  the closed channel and reports `channel closed unexpectedly`;
* second read fails with a transport error → worker logs it but still sends
  the partially read line, which the caller (deadline not fired) receives
  with a nil error;
* second read times out → worker sends the empty line, but the caller's
  `ctx.Done()` fired at the deadline instant, before the worker could
  notice, return and send, so the caller reports the timeout error.
Returns the observed result and the remaining transport script. -/
def waitForResponse (timeoutD : Nat) (s : List ReadEvent) :
    WaitResult × List ReadEvent :=
  match readLineIgnoreEof timeoutD 0 s with
  | .timedOut rest => (.timeout, rest)
  | .failed _ rest => (.channelClosed, rest)
  | .ok _ now1 rest =>
    match readLineIgnoreEof timeoutD now1 rest with
    | .timedOut rest2 => (.timeout, rest2)
    | .failed p rest2 => (.success p, rest2)
    | .ok l2 _ rest2 => (.success l2, rest2)

/-- The error values `ExecuteCommand` can return (each wrapped with a
phase-identifying message in the source). -/
inductive ExecErr
  | writeError
  | timeout
  | channelClosed
deriving DecidableEq

/-- Result of `ExecuteCommand`: the Go triple `(response, ok, err)`,
extended with the ghost observation `wire`, the frame handed to
`port.Write` by `WriteCommand`. -/
structure ExecOutcome where
  wire : List Nat
  response : List Nat
  ok : Bool
  error : Option ExecErr
deriving DecidableEq

/-- Source: the guard `(len(response) >= 1) && (response[0] == byte('+'))`.
The short-circuiting `&&` means `response[0]` is only read when the length
check passed. -/
def isContinuation (r : List Nat) : Bool :=
  match r with
  | [] => false
  | c :: _ => c == 43

/-- Source: `ExecuteCommand`.  `writeOk` models whether `port.Write`
succeeds (the transport gives no feedback on the written bytes).  On a write
error the zero-value response is returned; otherwise the first
`waitForResponse` runs, its error paths return the empty response it
produced; a payload starting with `'+'` triggers a second `waitForResponse`
with the same full `timeoutDuration` on the same reader, and `ok` compares
the trimmed classifying line against `OkResponseOk`. -/
def ExecuteCommand (writeOk : Bool) (cmd : List Nat) (timeoutD : Nat)
    (s : List ReadEvent) : ExecOutcome :=
  if writeOk then
    match waitForResponse timeoutD s with
    | (.timeout, _) => ⟨WriteCommandFrame cmd, [], false, some .timeout⟩
    | (.channelClosed, _) => ⟨WriteCommandFrame cmd, [], false, some .channelClosed⟩
    | (.success resp, rest) =>
      if isContinuation resp then
        match waitForResponse timeoutD rest with
        | (.timeout, _) => ⟨WriteCommandFrame cmd, resp, false, some .timeout⟩
        | (.channelClosed, _) =>
          ⟨WriteCommandFrame cmd, resp, false, some .channelClosed⟩
        | (.success okResp, _) =>
          ⟨WriteCommandFrame cmd, resp, trimSpace okResp == OkResponseOk, none⟩
      else ⟨WriteCommandFrame cmd, resp, trimSpace resp == OkResponseOk, none⟩
  else ⟨WriteCommandFrame cmd, [], false, some .writeError⟩

/-- Source: `ExecuteCommandRead` reshapes the body with
`fmt.Sprintf("+%s?", cmd)` and delegates. -/
def ExecuteCommandRead (writeOk : Bool) (cmd : List Nat) (timeoutD : Nat)
    (s : List ReadEvent) : ExecOutcome :=
  ExecuteCommand writeOk ([43] ++ cmd ++ [63]) timeoutD s

/-- Source: `ExecuteCommandExecute` reshapes the body with
`fmt.Sprintf("+%s", cmd)` and delegates. -/
def ExecuteCommandExecute (writeOk : Bool) (cmd : List Nat) (timeoutD : Nat)
    (s : List ReadEvent) : ExecOutcome :=
  ExecuteCommand writeOk ([43] ++ cmd) timeoutD s

end WaveshareComm

namespace WaveshareComm

/-! ## Helper lemmas -/

/-- Every branch of `ExecuteCommand` reports the same written frame. -/
theorem executeCommand_wire (w : Bool) (cmd : List Nat) (d : Nat)
    (s : List ReadEvent) :
    (ExecuteCommand w cmd d s).wire = WriteCommandFrame cmd := by
  unfold ExecuteCommand
  rcases hw : waitForResponse d s with ⟨wr, rest⟩
  cases w
  · rfl
  · cases wr with
    | timeout => simp [hw]
    | channelClosed => simp [hw]
    | success l =>
      simp only [hw, if_true]
      by_cases hc : isContinuation l
      · rcases hw2 : waitForResponse d rest with ⟨wr2, rest2⟩
        cases wr2 <;> simp [hc, hw2]
      · simp [hc]

/-- A script consisting only of `eof` events never produces a line:
`readLineIgnoreEof` ends in the deadline branch. -/
theorem readLineIgnoreEof_allEof (s : List ReadEvent)
    (h : ∀ e ∈ s, e = ReadEvent.eof) (d now : Nat) :
    ∃ rest, readLineIgnoreEof d now s = .timedOut rest := by
  induction s generalizing now with
  | nil =>
    refine ⟨[], ?_⟩
    rw [readLineIgnoreEof]
    split <;> rfl
  | cons e t ih =>
    have he : e = ReadEvent.eof := h e (List.mem_cons_self e t)
    subst he
    by_cases hd : d ≤ now
    · exact ⟨ReadEvent.eof :: t, by rw [readLineIgnoreEof]; simp [hd]⟩
    · obtain ⟨rest, hr⟩ := ih (fun x hx => h x (List.mem_cons_of_mem _ hx)) (now + 1)
      exact ⟨rest, by rw [readLineIgnoreEof]; simp [hd, hr]⟩

end WaveshareComm

namespace WaveshareComm

/-! ## Claim theorems -/

/-- C4: for every command body `b` (arbitrary bytes, no validation), the
wire frame written to the transport — both by `WriteCommand` directly and on
every path through `ExecuteCommand` — is exactly `"AT" + b + "\r\n"`,
that is `[65, 84] ++ b ++ [13, 10]`. -/
theorem writeCommand_frame (b : List Nat) :
    WriteCommandFrame b = [65, 84] ++ b ++ [13, 10] ∧
    ∀ (w : Bool) (d : Nat) (s : List ReadEvent),
      (ExecuteCommand w b d s).wire = [65, 84] ++ b ++ [13, 10] := by
  constructor
  · simp [WriteCommandFrame]
  · intro w d s
    rw [executeCommand_wire]
    simp [WriteCommandFrame]

/-- C6: for every body `b`, transport script and timeout,
`ExecuteCommandRead` equals `ExecuteCommand` on the body `"+" + b + "?"`
and `ExecuteCommandExecute` equals `ExecuteCommand` on `"+" + b`; the
wrappers add no other behaviour (full result equality). -/
theorem executeCommand_wrappers (w : Bool) (b : List Nat) (d : Nat)
    (s : List ReadEvent) :
    ExecuteCommandRead w b d s = ExecuteCommand w ([43] ++ b ++ [63]) d s ∧
    ExecuteCommandExecute w b d s = ExecuteCommand w ([43] ++ b) d s :=
  ⟨rfl, rfl⟩

/-- C7: the cancellable line reader checks the deadline first on every
iteration (timing out regardless of pending input), silently retries the
benign `io.EOF` condition, propagates any other read error immediately, and
returns a complete line as soon as one arrives. -/
theorem readLineIgnoreEof_spec :
    (∀ (d now : Nat) (s : List ReadEvent), d ≤ now →
      readLineIgnoreEof d now s = .timedOut s) ∧
    (∀ (d now : Nat) (rest : List ReadEvent), now < d →
      readLineIgnoreEof d now (.eof :: rest) = readLineIgnoreEof d (now + 1) rest) ∧
    (∀ (d now : Nat) (p : List Nat) (rest : List ReadEvent), now < d →
      readLineIgnoreEof d now (.fail p :: rest) = .failed p rest) ∧
    (∀ (d now : Nat) (b : List Nat) (rest : List ReadEvent), now < d →
      readLineIgnoreEof d now (.line b :: rest) = .ok b (now + 1) rest) := by
  refine ⟨?_, ?_, ?_, ?_⟩
  · intro d now s h
    rw [readLineIgnoreEof.eq_def]
    simp [h]
  · intro d now rest h
    rw [readLineIgnoreEof]
    simp [Nat.not_le.mpr h]
  · intro d now p rest h
    rw [readLineIgnoreEof]
    simp [Nat.not_le.mpr h]
  · intro d now b rest h
    rw [readLineIgnoreEof]
    simp [Nat.not_le.mpr h]

/-- Witness for C7 at concrete inputs. -/
theorem readLineIgnoreEof_spec_witness :
    readLineIgnoreEof 3 5 [ReadEvent.eof] = .timedOut [ReadEvent.eof] ∧
    readLineIgnoreEof 5 0 [ReadEvent.eof, ReadEvent.line [65]]
      = readLineIgnoreEof 5 1 [ReadEvent.line [65]] ∧
    readLineIgnoreEof 5 0 [ReadEvent.fail [66]] = .failed [66] [] ∧
    readLineIgnoreEof 5 0 [ReadEvent.line [65]] = .ok [65] 1 [] :=
  ⟨readLineIgnoreEof_spec.1 3 5 _ (by decide),
   readLineIgnoreEof_spec.2.1 5 0 _ (by decide),
   readLineIgnoreEof_spec.2.2.1 5 0 [66] _ (by decide),
   readLineIgnoreEof_spec.2.2.2 5 0 [65] _ (by decide)⟩

/-- C5: if the transport never delivers a complete line within the timeout
(every read attempt reports the benign end-of-input condition),
`ExecuteCommand` returns the timeout error and an empty payload. -/
theorem executeCommand_allEof_timeout (cmd : List Nat) (d : Nat)
    (s : List ReadEvent) (h : ∀ e ∈ s, e = ReadEvent.eof) :
    ExecuteCommand true cmd d s
      = ⟨WriteCommandFrame cmd, [], false, some .timeout⟩ := by
  obtain ⟨rest, hr⟩ := readLineIgnoreEof_allEof s h d 0
  rw [ExecuteCommand, waitForResponse, hr]
  simp

/-- Witness for C5: a script of two `eof` events under timeout 5. -/
theorem executeCommand_allEof_timeout_witness :
    ExecuteCommand true [] 5 [ReadEvent.eof, ReadEvent.eof]
      = ⟨WriteCommandFrame [], [], false, some .timeout⟩ :=
  executeCommand_allEof_timeout [] 5 _ (by decide)

end WaveshareComm

namespace WaveshareComm

/-- C3: the success flag computed by `ExecuteCommand` equals
`trim(l) == "OK"` for the classifying line `l` — both on the direct path
(payload not starting with `'+'`) and on the status path (the line fetched
by the second wait); in particular `" OK "` classifies as `true`, and
`"ERROR"` and the empty line classify as `false` (with a nil error). -/
theorem executeCommand_classify :
    (∀ (cmd : List Nat) (d : Nat) (s rest : List ReadEvent) (l : List Nat),
      waitForResponse d s = (.success l, rest) → isContinuation l = false →
      (ExecuteCommand true cmd d s).ok = (trimSpace l == OkResponseOk)) ∧
    (∀ (cmd : List Nat) (d : Nat) (s rest rest2 : List ReadEvent)
        (l l2 : List Nat),
      waitForResponse d s = (.success l, rest) → isContinuation l = true →
      waitForResponse d rest = (.success l2, rest2) →
      (ExecuteCommand true cmd d s).ok = (trimSpace l2 == OkResponseOk)) ∧
    (ExecuteCommand true [] 9 [.line [], .line (asciiBytes " OK ")]).ok = true ∧
    (ExecuteCommand true [] 9 [.line [], .line (asciiBytes "ERROR")])
      = ⟨WriteCommandFrame [], asciiBytes "ERROR", false, none⟩ ∧
    (ExecuteCommand true [] 9 [.line [], .line []])
      = ⟨WriteCommandFrame [], [], false, none⟩ := by
  refine ⟨?_, ?_, by decide, by decide, by decide⟩
  · intro cmd d s rest l h1 h2
    rw [ExecuteCommand, h1]
    simp [h2]
  · intro cmd d s rest rest2 l l2 h1 h2 h3
    rw [ExecuteCommand, h1]
    simp [h2, h3]

/-- Witness for C3's universally quantified parts at concrete scripts. -/
theorem executeCommand_classify_witness :
    (ExecuteCommand true [] 9 [ReadEvent.line [], ReadEvent.line [69]]).ok
      = (trimSpace [69] == OkResponseOk) ∧
    (ExecuteCommand true [] 9
        [ReadEvent.line [], ReadEvent.line [43], ReadEvent.line [],
         ReadEvent.line [79, 75]]).ok
      = (trimSpace [79, 75] == OkResponseOk) :=
  ⟨executeCommand_classify.1 [] 9 _ [] [69] (by decide) (by decide),
   executeCommand_classify.2.1 [] 9 _ [ReadEvent.line [], ReadEvent.line [79, 75]]
     [] [43] [79, 75] (by decide) (by decide) (by decide)⟩

/-- C2: whenever the first response wait yields a payload line whose first
byte is `'+'`, `ExecuteCommand` issues a second response wait with the same
full timeout restarted fresh (the clock of the second `waitForResponse`
starts again at 0), returns the intermediate line as the payload, and
computes `ok` from the status line delivered by that second wait. -/
theorem executeCommand_continuation (cmd : List Nat) (d : Nat)
    (s rest : List ReadEvent) (r : List Nat)
    (h1 : waitForResponse d s = (.success r, rest))
    (h2 : r.head? = some 43) :
    ExecuteCommand true cmd d s =
      match waitForResponse d rest with
      | (.success l2, _) =>
        ⟨WriteCommandFrame cmd, r, trimSpace l2 == OkResponseOk, none⟩
      | (.timeout, _) => ⟨WriteCommandFrame cmd, r, false, some .timeout⟩
      | (.channelClosed, _) =>
        ⟨WriteCommandFrame cmd, r, false, some .channelClosed⟩ := by
  have hc : isContinuation r = true := by
    cases r with
    | nil => simp at h2
    | cons c t =>
      simp only [List.head?, Option.some.injEq] at h2
      simp [isContinuation, h2]
  rw [ExecuteCommand, h1]
  simp only [hc, if_true]
  rcases hw2 : waitForResponse d rest with ⟨wr2, rest2⟩
  cases wr2 <;> simp [hw2]

/-- Witness for C2: a `'+'` payload followed by a framed `OK` status. -/
theorem executeCommand_continuation_witness :
    ExecuteCommand true [] 9
        [ReadEvent.line [], ReadEvent.line [43, 88], ReadEvent.line [],
         ReadEvent.line [79, 75]] =
      match waitForResponse 9 [ReadEvent.line [], ReadEvent.line [79, 75]] with
      | (.success l2, _) =>
        ⟨WriteCommandFrame [], [43, 88], trimSpace l2 == OkResponseOk, none⟩
      | (.timeout, _) => ⟨WriteCommandFrame [], [43, 88], false, some .timeout⟩
      | (.channelClosed, _) =>
        ⟨WriteCommandFrame [], [43, 88], false, some .channelClosed⟩ :=
  executeCommand_continuation [] 9 _ [ReadEvent.line [], ReadEvent.line [79, 75]]
    [43, 88] (by decide) (by decide)

/-- C10: an empty payload line takes the direct classification path (the
length guard short-circuits before any indexing), producing `success=false`
and a nil error; no out-of-range access is possible since the head byte is
only inspected on nonempty lines. -/
theorem executeCommand_emptyPayload (cmd : List Nat) (d : Nat)
    (s rest : List ReadEvent)
    (h : waitForResponse d s = (.success [], rest)) :
    ExecuteCommand true cmd d s = ⟨WriteCommandFrame cmd, [], false, none⟩ := by
  rw [ExecuteCommand, h]
  simp [isContinuation]
  decide

/-- Witness for C10: an empty framing line then an empty payload line. -/
theorem executeCommand_emptyPayload_witness :
    ExecuteCommand true [65] 9 [ReadEvent.line [], ReadEvent.line []]
      = ⟨WriteCommandFrame [65], [], false, none⟩ :=
  executeCommand_emptyPayload [65] 9 _ [] (by decide)

end WaveshareComm

namespace WaveshareComm

/-- C9: if the worker's second inner read (the payload read) fails with a
transport error, the worker only logs that error and still hands over the
partially read (possibly empty) line, so the caller — whose deadline has
not fired — receives that line with a nil error instead of any error value.
(When the failure is the deadline expiring, the caller's own deadline has
fired as well, since both reads run under the same context.) -/
theorem waitForResponse_secondRead_error_swallowed (d n1 : Nat)
    (s rest rest2 : List ReadEvent) (l1 p : List Nat)
    (h1 : readLineIgnoreEof d 0 s = .ok l1 n1 rest)
    (h2 : readLineIgnoreEof d n1 rest = .failed p rest2) :
    waitForResponse d s = (.success p, rest2) := by
  rw [waitForResponse, h1]
  dsimp only
  rw [h2]

/-- Witness for C9: framing line read, then a failing payload read whose
partial bytes `[88]` come back as a successful response. -/
theorem waitForResponse_secondRead_error_swallowed_witness :
    waitForResponse 9 [ReadEvent.line [], ReadEvent.fail [88]]
      = (.success [88], []) :=
  waitForResponse_secondRead_error_swallowed 9 1 _ [ReadEvent.fail [88]] []
    [] [88] (by decide) (by decide)

/-- C8 (counterexample to the claim as stated): a transport error in the
worker's first inner read — far from the deadline — does surface to the
caller as the `channel closed unexpectedly` error: the worker exits *with*
a (logged) error and without delivering, and the caller, whose deadline has
not fired, receives from the closed channel. -/
theorem waitForResponse_transport_error_ccu :
    waitForResponse 1000 [ReadEvent.fail [70], ReadEvent.line [79, 75]]
      = (.channelClosed, [ReadEvent.line [79, 75]]) ∧
    readLineIgnoreEof 1000 0 [ReadEvent.fail [70], ReadEvent.line [79, 75]]
      = .failed [70] [ReadEvent.line [79, 75]] := by
  decide

/-- C8 (amended): `waitForResponse` returns `channel closed unexpectedly`
exactly when the worker's first inner read fails with a transport
(non-timeout) error, so that the worker exits without delivering while the
caller's deadline has not fired; in particular an expected runtime failure
of the first read, not only an internal invariant breach, produces it. -/
theorem waitForResponse_channelClosed_iff :
    (∀ (d : Nat) (s rest : List ReadEvent) (p : List Nat),
      readLineIgnoreEof d 0 s = .failed p rest →
      waitForResponse d s = (.channelClosed, rest)) ∧
    (∀ (d : Nat) (s rest : List ReadEvent),
      waitForResponse d s = (.channelClosed, rest) →
      ∃ p, readLineIgnoreEof d 0 s = .failed p rest) := by
  constructor
  · intro d s rest p h
    rw [waitForResponse, h]
  · intro d s rest h
    rw [waitForResponse] at h
    rcases h1 : readLineIgnoreEof d 0 s with ⟨l1, n1, r1⟩ | r1 | ⟨p, r1⟩ <;>
      rw [h1] at h <;> dsimp only at h
    · rcases h2 : readLineIgnoreEof d n1 r1 with ⟨l2, n2, r2⟩ | r2 | ⟨q, r2⟩ <;>
        rw [h2] at h <;> simp_all
    · simp_all
    · simp_all

/-- Witness for C8's amended theorem at a concrete failing first read. -/
theorem waitForResponse_channelClosed_iff_witness :
    waitForResponse 7 [ReadEvent.fail [90]] = (.channelClosed, []) :=
  waitForResponse_channelClosed_iff.1 7 [ReadEvent.fail [90]] [] [90]
    (by decide)

/-- The scripted transport of C1 exactly as the claim states it: reads
deliver `\r\n`, then `+COPS: 0,0,"Carrier"\r\n`, then `OK\r\n`, i.e. the
lines `""`, `+COPS: 0,0,"Carrier"` and `OK`, then nothing more. -/
def c1Script : List ReadEvent :=
  [.line [], .line (asciiBytes "+COPS: 0,0,\"Carrier\""), .line (asciiBytes "OK")]

/-- The same transport with the conventional framing of the status line
(§6 wire format): `\r\n`, `+COPS: 0,0,"Carrier"\r\n`, `\r\n`, `OK\r\n`. -/
def c1ScriptFramed : List ReadEvent :=
  [.line [], .line (asciiBytes "+COPS: 0,0,\"Carrier\""), .line [],
   .line (asciiBytes "OK")]

/-- C1 (counterexample): on the three-chunk script of the claim, the second
response wait consumes `OK` as its framing line and then times out, so
`ExecuteCommandRead` returns the intermediate payload with `success=false`
and a timeout error — not `success=true` with a nil error. -/
theorem executeCommandRead_cops_threeLines :
    ExecuteCommandRead true (asciiBytes "COPS") 1000 c1Script
      = ⟨asciiBytes "AT+COPS?\r\n", asciiBytes "+COPS: 0,0,\"Carrier\"", false,
         some .timeout⟩ ∧
    ExecuteCommandRead true (asciiBytes "COPS") 1000 c1Script
      ≠ ⟨asciiBytes "AT+COPS?\r\n", asciiBytes "+COPS: 0,0,\"Carrier\"", true,
         none⟩ := by
  decide

/-- C1 (amended): when the status line arrives with its own leading `\r\n`
framing — the wire format §6 describes — `ExecuteCommandRead` on `COPS`
returns payload `+COPS: 0,0,"Carrier"`, `success=true` and a nil error,
having written `AT+COPS?\r\n` on the wire. -/
theorem executeCommandRead_cops_framed :
    ExecuteCommandRead true (asciiBytes "COPS") 1000 c1ScriptFramed
      = ⟨asciiBytes "AT+COPS?\r\n", asciiBytes "+COPS: 0,0,\"Carrier\"", true,
         none⟩ := by
  decide

end WaveshareComm
